import Mathlib

/-!
Shallow embedding of the physics/collision core of the platformer repository
(`physics.py`, plus the jump state machine of `test.py`), together with
theorems settling the specification claims about it.

Numbers are modelled as exact rationals (the source computes with Python
floats over the same formulas).  The only non-rational operation in the
source is `length = sqrt(lengthSq)` which is immediately consumed by
`ceil(length / sweep_length)`; that composition is embedded exactly by
`ceilSqrt` (the least natural `n` with `lengthSq / sweep_length^2 ≤ n^2`),
and the bridging lemma `ceilSqrt_div_eq_ceil_sqrt` proves it equal to the
real-number ceiling the source computes.  `simulate_one` returns an
`Option`: `none` models the `ZeroDivisionError` the source raises when the
sweep unit `min(w, h) / 2` is zero.
-/

set_option maxRecDepth 100000

namespace Platformer

/-- Embeds `Vec2` of physics.py. -/
structure Vec2 where
  x : ℚ := 0
  y : ℚ := 0
deriving DecidableEq

/-- Embeds `Rect` of physics.py; also plays the role of `Static`, which the
source defines as a `Rect` with no extra fields. -/
structure Rect where
  x : ℚ := 0
  y : ℚ := 0
  w : ℚ := 0
  h : ℚ := 0
deriving DecidableEq

/-- Embeds the `r` property (`x + w`). -/
def Rect.r (a : Rect) : ℚ := a.x + a.w

/-- Embeds the `b` property (`y + h`). -/
def Rect.b (a : Rect) : ℚ := a.y + a.h

/-- Embeds `Dynamic` of physics.py: a rectangle plus velocity, the
per-substep snapshot `old_position`, and the per-frame collision flag. -/
structure Dynamic where
  x : ℚ := 0
  y : ℚ := 0
  w : ℚ := 0
  h : ℚ := 0
  velocity : Vec2 := {}
  old_position : Vec2 := {}
  had_collision : Bool := false
deriving DecidableEq

/-- The rectangle extent of a dynamic body (the fields `check_collision`
reads from either entity kind). -/
def Dynamic.rect (one : Dynamic) : Rect := ⟨one.x, one.y, one.w, one.h⟩

/-- Embeds `World`: the static entities and the gravity vector.  The
source keeps statics and dynamics in one `things` list and splits them by
attribute probing (`static_things` / `dynamic_things`); since dynamics
never collide with each other, a frame acts on each dynamic body
separately against the statics, which is what the claims quantify over. -/
structure World where
  statics : List Rect := []
  gravity : Vec2 := ⟨0, 1⟩
deriving DecidableEq

/-- Embeds `World.check_collision`: strict AABB overlap on both axes. -/
def check_collision (one two : Rect) : Bool :=
  let h_collision := decide (one.x < two.r) && decide (one.r > two.x)
  let v_collision := decide (one.y < two.b) && decide (one.b > two.y)
  h_collision && v_collision

/-- Embeds `World.check_dynamic_static_collision`: does the body overlap
any static entity. -/
def check_dynamic_static_collision (wld : World) (one : Dynamic) : Bool :=
  wld.statics.any fun two => check_collision one.rect two

/-- Embeds `World.simulate_one_substep` with time scale `steps`
(the source's `steps` parameter, a fraction of a frame): snapshot
`old_position`, add `gravity * steps` to the velocity, move and resolve
the vertical axis, then move and resolve the horizontal axis.  Returns
the updated body and whether this substep hit anything.  Each rollback
restores the moved coordinate from `old_position` and zeroes that
velocity component, exactly as the source does. -/
def simulate_one_substep (wld : World) (one : Dynamic) (steps : ℚ) : Dynamic × Bool :=
  let one1 := { one with old_position := ⟨one.x, one.y⟩ }
  let one2 := { one1 with velocity := ⟨one1.velocity.x + wld.gravity.x * steps,
                                       one1.velocity.y + wld.gravity.y * steps⟩ }
  let one3 := { one2 with y := one2.y + one2.velocity.y * steps }
  let hadY := check_dynamic_static_collision wld one3
  let one4 := if hadY then { one3 with y := one3.old_position.y,
                                       velocity := ⟨one3.velocity.x, 0⟩ } else one3
  let one5 := { one4 with x := one4.x + one4.velocity.x * steps }
  let hadX := check_dynamic_static_collision wld one5
  let one6 := if hadX then { one5 with x := one5.old_position.x,
                                       velocity := ⟨0, one5.velocity.y⟩ } else one5
  (one6, hadY || hadX)

/-- Embeds the loop body of `World.simulate_one_step`: run `n` substeps at
time scale `dt`, setting `had_collision := true` after any substep that
reports a hit (the flag is never cleared by this loop). -/
def run_substeps (wld : World) (dt : ℚ) : ℕ → Dynamic → Dynamic
  | 0, one => one
  | n + 1, one =>
    let r := simulate_one_substep wld one dt
    let one := if r.2 then { r.1 with had_collision := true } else r.1
    run_substeps wld dt n one

/-- Embeds `World.simulate_one_step(one, steps_per_frame)`: `steps_per_frame`
substeps, each with time scale `1 / steps_per_frame`.  When `n = 0` the
source's `range(0)` loop runs nothing and the division `1 / 0` inside the
loop body is never evaluated; here the unused `dt` is the junk value
`1 / 0 = 0` of rational division, which no substep consumes. -/
def simulate_one_step (wld : World) (one : Dynamic) (n : ℕ) : Dynamic :=
  run_substeps wld (1 / (n : ℚ)) n one

/-- Least `n` in `[k, k + fuel]` with `c ≤ n * n` (returns `k + fuel` if
there is none); structural fuel makes it kernel-reducible. -/
def ceilSqrtAux (c : ℕ) : ℕ → ℕ → ℕ
  | 0, k => k
  | fuel + 1, k => if c ≤ k * k then k else ceilSqrtAux c fuel (k + 1)

/-- Least natural `n` with `c ≤ n * n` (the ceiling of the real square
root of `c`). -/
def ceilSqrtNat (c : ℕ) : ℕ := ceilSqrtAux c c 0

/-- Ceiling of the real square root of a rational: least natural `n` with
`q ≤ n ^ 2`, and `0` for `q ≤ 0` (Python's `ceil` applied to `0.0` or a
negative quotient also yields a non-positive integer, clamped to zero
substeps by `range`). -/
def ceilSqrt (q : ℚ) : ℕ :=
  if q ≤ 0 then 0 else ceilSqrtNat ⌈q⌉.toNat

/-- Embeds `ceil(length / sweep_length)` of `simulate_one`, where
`length = sqrt(lsq)`: for `sweep_length > 0` this is the least `n` with
`lsq ≤ (n * sweep_length)^2`.  For `sweep_length < 0` the source's `ceil`
yields a non-positive integer and `range` then runs zero substeps, which
the clamp to `0` models. -/
def sweepStepsOf (lsq sweep_length : ℚ) : ℕ :=
  if sweep_length < 0 then 0 else ceilSqrt (lsq / sweep_length ^ 2)

/-- Embeds the `length ** 2` computation of `simulate_one`: the squared
planned displacement `|velocity + gravity|^2` for this frame. -/
def lengthSq (wld : World) (one : Dynamic) : ℚ :=
  let new_x := one.x + one.velocity.x + wld.gravity.x
  let new_y := one.y + one.velocity.y + wld.gravity.y
  (one.x - new_x) ^ 2 + (one.y - new_y) ^ 2

/-- Embeds the coarse, size-based substep count of `simulate_one`:
`ceil(length / (min(w, h) / 2))`. -/
def coarseSweepSteps (wld : World) (one : Dynamic) : ℕ :=
  sweepStepsOf (lengthSq wld one) (min one.w one.h / 2)

/-- Embeds the fine substep count of `simulate_one` after a trial hit:
`ceil(length / 0.5)`. -/
def fineSweepSteps (wld : World) (one : Dynamic) : ℕ :=
  sweepStepsOf (lengthSq wld one) (1 / 2)

/-- Embeds `Dynamic(one.x, one.y, one.w, one.h, Vec2(one.velocity.x,
one.velocity.y))`: the disposable trial copy, with default `old_position`
and a cleared collision flag. -/
def mkDummy (one : Dynamic) : Dynamic :=
  { x := one.x, y := one.y, w := one.w, h := one.h,
    velocity := ⟨one.velocity.x, one.velocity.y⟩ }

/-- Embeds `World.simulate_one`: with sweeping, compute the coarse substep
count, run the frame on a disposable copy, and either copy the copy's
position/velocity/flag back (no trial hit) or re-run the frame on the real
body at the fine subdivision (trial hit).  `none` models the
`ZeroDivisionError` the source raises when the sweep unit
`min(w, h) / 2` is zero. -/
def simulate_one (wld : World) (one : Dynamic) (spf : ℕ) (sweep : Bool) : Option Dynamic :=
  if sweep then
    if min one.w one.h / 2 = 0 then none
    else
      let dummy := simulate_one_step wld (mkDummy one) (spf * coarseSweepSteps wld one)
      if dummy.had_collision then
        some (simulate_one_step wld one (spf * fineSweepSteps wld one))
      else
        some { one with x := dummy.x, y := dummy.y,
                        velocity := dummy.velocity,
                        had_collision := dummy.had_collision }
  else
    let dummy := simulate_one_step wld (mkDummy one) (spf * 1)
    some { one with x := dummy.x, y := dummy.y,
                    velocity := dummy.velocity,
                    had_collision := dummy.had_collision }

/-- Iterates `simulate_one` over whole frames for a single body, the way
`update()` calls `World.simulate` once per frame for each dynamic body. -/
def simulateFrames (wld : World) (spf : ℕ) (sweep : Bool) (one : Dynamic) : ℕ → Option Dynamic
  | 0 => some one
  | n + 1 => (simulate_one wld one spf sweep).bind fun next => simulateFrames wld spf sweep next n

/-!
The single-substep algorithm restated phase by phase, following the
specification's numbered steps (snapshot, accelerate, vertical move and
resolve, horizontal move and resolve), to be compared with
`simulate_one_substep` as translated from the source.
-/

/-- Specification step 1: snapshot `previous_position = (x, y)`. -/
def snapshotPosition (one : Dynamic) : Dynamic :=
  { one with old_position := ⟨one.x, one.y⟩ }

/-- Specification step 2: `velocity += gravity * dt` (both components). -/
def accelerate (g : Vec2) (dt : ℚ) (one : Dynamic) : Dynamic :=
  { one with velocity := ⟨one.velocity.x + g.x * dt, one.velocity.y + g.y * dt⟩ }

/-- Specification step 3: `y += velocity.y * dt`; on any overlap with any
obstacle restore `y = previous_position.y`, zero `velocity.y`, report a
collision. -/
def moveVertical (wld : World) (dt : ℚ) (one : Dynamic) : Dynamic × Bool :=
  let moved := { one with y := one.y + one.velocity.y * dt }
  if check_dynamic_static_collision wld moved then
    ({ moved with y := moved.old_position.y, velocity := ⟨moved.velocity.x, 0⟩ }, true)
  else (moved, false)

/-- Specification step 4: `x += velocity.x * dt`; on any overlap with any
obstacle restore `x = previous_position.x`, zero `velocity.x`, report a
collision. -/
def moveHorizontal (wld : World) (dt : ℚ) (one : Dynamic) : Dynamic × Bool :=
  let moved := { one with x := one.x + one.velocity.x * dt }
  if check_dynamic_static_collision wld moved then
    ({ moved with x := moved.old_position.x, velocity := ⟨0, moved.velocity.y⟩ }, true)
  else (moved, false)

/-- The substep algorithm as the specification words it: snapshot, then
accelerate, then the vertical phase, then (only afterwards) the horizontal
phase; the substep reports a collision if either phase did. -/
def substepSpec (wld : World) (one : Dynamic) (dt : ℚ) : Dynamic × Bool :=
  let a := snapshotPosition one
  let b := accelerate wld.gravity dt a
  let v := moveVertical wld dt b
  let h := moveHorizontal wld dt v.1
  (h.1, v.2 || h.2)

/-!
The jump state machine of `GuyInputComponent._jump_state_machine` in
test.py, acting on the fields the method reads and writes: `velocity.y`,
`had_collision`, the input snapshot, `jump_frame` and `jump_state`.
-/

/-- The three jump states of the controller. -/
inductive JumpState where
  | standing
  | jumping
  | falling
deriving DecidableEq

/-- Embeds `MAX_JUMP_FRAME = 5` of test.py. -/
def MAX_JUMP_FRAME : ℕ := 5

/-- Embeds `JUMP_VELOCITY = -3.6` of test.py. -/
def JUMP_VELOCITY : ℚ := -18 / 5

/-- The state `_jump_state_machine` operates on: the body fields it
touches plus the controller fields of `GuyInputComponent`. -/
structure Guy where
  vy : ℚ := 0
  had_collision : Bool := false
  jump_pressed : Bool := false
  jump_pressed_now : Bool := false
  jump_frame : ℕ := 0
  jump_state : JumpState := .falling
deriving DecidableEq

/-- Embeds the `jumping` branch of `_jump_state_machine`: on a collision
reset the counter and fall; otherwise, while the key is held, force the
jump velocity, bump the counter, and fall once the counter exceeds
`MAX_JUMP_FRAME`; with the key released, nothing happens. -/
def jumpingStep (g : Guy) : Guy :=
  if g.had_collision then
    { g with jump_frame := 0, jump_state := .falling }
  else if g.jump_pressed then
    let g := { g with vy := JUMP_VELOCITY, jump_frame := g.jump_frame + 1 }
    if MAX_JUMP_FRAME < g.jump_frame then
      { g with jump_frame := 0, jump_state := .falling }
    else g
  else g

/-- Embeds `_jump_state_machine`.  The `standing` branch zeroes the
vertical velocity, falls when the resting contact is gone, and on a jump
edge switches to `jumping`, clears the flag, and re-runs the machine
immediately — which then executes the `jumping` branch, embedded here by
calling `jumpingStep` directly. -/
def jumpStateMachine (g : Guy) : Guy :=
  match g.jump_state with
  | .standing =>
    let g := { g with vy := 0 }
    if !g.had_collision then { g with jump_state := .falling }
    else if g.jump_pressed_now then
      jumpingStep { g with jump_state := .jumping, had_collision := false }
    else g
  | .jumping => jumpingStep g
  | .falling =>
    if g.had_collision then { g with jump_state := .standing } else g

/-!
Concrete scenarios used by the claims.
-/

/-- The world of the resting-stability and no-tunneling scenarios:
obstacle `rect(0, 30, 16, 3)`, gravity `(0, 1)` (the source's `normal`
and `tunnel` scenes). -/
def world1 : World := { statics := [⟨0, 30, 16, 3⟩], gravity := ⟨0, 1⟩ }

/-- The resting-stability body `rect(4, 10, 3, 3)` at rest. -/
def body1 : Dynamic := { x := 4, y := 10, w := 3, h := 3 }

/-- The state the resting-stability body reaches after 7 frames and then
keeps forever: resting at `y = 971/36`, i.e. bottom `1079/36 = 29.97…`,
a little above the obstacle's top edge `30`. -/
def restState1 : Dynamic :=
  { x := 4, y := 971 / 36, w := 3, h := 3, velocity := ⟨0, 0⟩,
    old_position := ⟨4, 971 / 36⟩, had_collision := true }

/-- The no-tunneling body: `rect(4, 0, 3, 3)` moving at `(0, 20)`. -/
def body2 : Dynamic := { x := 4, y := 0, w := 3, h := 3, velocity := ⟨0, 20⟩ }

/-- The state the no-tunneling body reaches after 3 frames and then keeps
forever: resting at `y = 182935/6776`, bottom `29.997…`. -/
def restState2 : Dynamic :=
  { x := 4, y := 182935 / 6776, w := 3, h := 3, velocity := ⟨0, 0⟩,
    old_position := ⟨4, 182935 / 6776⟩, had_collision := true }

/-!
General lemmas about the embedding.
-/

/-- Frames compose: simulating `m + n` frames is simulating `m`, then `n`. -/
theorem simulateFrames_add (wld : World) (spf : ℕ) (sweep : Bool) :
    ∀ (m : ℕ) (one : Dynamic) (n : ℕ),
      simulateFrames wld spf sweep one (m + n) =
        (simulateFrames wld spf sweep one m).bind fun s => simulateFrames wld spf sweep s n
  | 0, one, n => by simp [simulateFrames]
  | m + 1, one, n => by
    rw [Nat.succ_add]
    simp only [simulateFrames, Option.bind_assoc]
    cases simulate_one wld one spf sweep with
    | none => rfl
    | some s => simpa using simulateFrames_add wld spf sweep m s n

/-- A state that one frame maps to itself is kept by every number of frames. -/
theorem simulateFrames_fixed (wld : World) (spf : ℕ) (sweep : Bool) (s : Dynamic)
    (h : simulate_one wld s spf sweep = some s) :
    ∀ n, simulateFrames wld spf sweep s n = some s
  | 0 => rfl
  | n + 1 => by
    simp only [simulateFrames, h, Option.bind_some]
    exact simulateFrames_fixed wld spf sweep s h n

/-- A substep never reads the incoming `old_position`: it overwrites the
snapshot before any use. -/
theorem simulate_one_substep_old (wld : World) (one : Dynamic) (dt : ℚ) (p : Vec2) :
    simulate_one_substep wld { one with old_position := p } dt =
      simulate_one_substep wld one dt := rfl

/-- A substep never reads `had_collision` and carries it through unchanged. -/
theorem simulate_one_substep_flag (wld : World) (one : Dynamic) (dt : ℚ) (f : Bool) :
    simulate_one_substep wld { one with had_collision := f } dt =
      ({ (simulate_one_substep wld one dt).1 with had_collision := f },
        (simulate_one_substep wld one dt).2) := by
  cases one
  simp only [simulate_one_substep, check_dynamic_static_collision, Dynamic.rect]
  split_ifs <;> rfl

/-- The body a substep returns still holds the collision flag it came in with. -/
theorem simulate_one_substep_keeps_flag (wld : World) (one : Dynamic) (dt : ℚ) :
    (simulate_one_substep wld one dt).1.had_collision = one.had_collision := by
  cases one
  simp only [simulate_one_substep, check_dynamic_static_collision, Dynamic.rect]
  split_ifs <;> rfl

/-- The trial copy is the body with `old_position` reset and the collision
flag cleared. -/
theorem mkDummy_decomp (one : Dynamic) :
    mkDummy one = { one with old_position := ⟨0, 0⟩, had_collision := false } := by
  cases one with
  | mk x y w h v p f => cases v; rfl

/-- Once the collision flag is set, running substeps never clears it. -/
theorem run_substeps_stays_true (wld : World) (dt : ℚ) :
    ∀ (n : ℕ) (one : Dynamic), one.had_collision = true →
      (run_substeps wld dt n one).had_collision = true
  | 0, one, h => h
  | n + 1, one, h => by
    simp only [run_substeps]
    split
    · exact run_substeps_stays_true wld dt n _ rfl
    · exact run_substeps_stays_true wld dt n _
        ((simulate_one_substep_keeps_flag wld one dt).trans h)

/-- Overriding a just-set collision flag keeps only the outer value. -/
theorem flag_override (r : Dynamic) (a b : Bool) :
    ({ ({ r with had_collision := a } : Dynamic) with had_collision := b } : Dynamic) =
      { r with had_collision := b } := by
  cases r; rfl

/-- Writing a body's own collision flag back is the identity. -/
theorem set_flag_self (r : Dynamic) :
    ({ r with had_collision := r.had_collision } : Dynamic) = r := by
  cases r; rfl

/-- Running substeps from flag `f` gives the same body as running from a
cleared flag, except that the final flag also ORs in `f`: the loop only
ever sets the flag, it never recomputes it from scratch. -/
theorem run_substeps_flag (wld : World) (dt : ℚ) :
    ∀ (n : ℕ) (one : Dynamic) (f : Bool),
      run_substeps wld dt n { one with had_collision := f } =
        { run_substeps wld dt n { one with had_collision := false } with
          had_collision :=
            f || (run_substeps wld dt n { one with had_collision := false }).had_collision }
  | 0, one, f => by cases one; simp [run_substeps]
  | n + 1, one, f => by
    simp only [run_substeps, simulate_one_substep_flag, flag_override]
    rcases hc : (simulate_one_substep wld one dt).2 with _ | _
    · simp only [hc, Bool.false_eq_true, if_false]
      exact run_substeps_flag wld dt n (simulate_one_substep wld one dt).1 f
    · simp only [hc, if_true]
      have htrue :
          (run_substeps wld dt n
            { (simulate_one_substep wld one dt).1 with had_collision := true }).had_collision
            = true :=
        run_substeps_stays_true wld dt n _ rfl
      have h2 := set_flag_self
        (run_substeps wld dt n { (simulate_one_substep wld one dt).1 with had_collision := true })
      rw [htrue] at h2
      rw [htrue, Bool.or_true, h2]

/-- After at least one substep, the incoming `old_position` is forgotten. -/
theorem run_substeps_old (wld : World) (dt : ℚ) (n : ℕ) (one : Dynamic) (p : Vec2) :
    run_substeps wld dt (n + 1) { one with old_position := p } =
      run_substeps wld dt (n + 1) one := by
  simp only [run_substeps, simulate_one_substep_old]

/-- Simulating substeps on the disposable trial copy tracks the direct
simulation exactly in position, size and velocity, and the direct run's
final flag is the incoming flag ORed with the trial's flag. -/
theorem run_substeps_mkDummy (wld : World) (dt : ℚ) (n : ℕ) (one : Dynamic) :
    (run_substeps wld dt n one).x = (run_substeps wld dt n (mkDummy one)).x ∧
    (run_substeps wld dt n one).y = (run_substeps wld dt n (mkDummy one)).y ∧
    (run_substeps wld dt n one).w = (run_substeps wld dt n (mkDummy one)).w ∧
    (run_substeps wld dt n one).h = (run_substeps wld dt n (mkDummy one)).h ∧
    (run_substeps wld dt n one).velocity = (run_substeps wld dt n (mkDummy one)).velocity ∧
    (run_substeps wld dt n one).had_collision =
      (one.had_collision || (run_substeps wld dt n (mkDummy one)).had_collision) := by
  cases one with
  | mk x y w h v p f =>
    cases v with
    | mk vx vy =>
      have hmk : mkDummy ⟨x, y, w, h, ⟨vx, vy⟩, p, f⟩ =
          (⟨x, y, w, h, ⟨vx, vy⟩, ⟨0, 0⟩, false⟩ : Dynamic) := rfl
      rw [hmk]
      cases n with
      | zero => simp [run_substeps]
      | succ n =>
        have hold : run_substeps wld dt (n + 1) (⟨x, y, w, h, ⟨vx, vy⟩, ⟨0, 0⟩, false⟩ : Dynamic)
            = run_substeps wld dt (n + 1) (⟨x, y, w, h, ⟨vx, vy⟩, p, false⟩ : Dynamic) :=
          run_substeps_old wld dt n (⟨x, y, w, h, ⟨vx, vy⟩, p, false⟩ : Dynamic) ⟨0, 0⟩
        rw [hold]
        have hflag := run_substeps_flag wld dt (n + 1)
          (⟨x, y, w, h, ⟨vx, vy⟩, p, false⟩ : Dynamic) f
        rw [show (⟨x, y, w, h, ⟨vx, vy⟩, p, f⟩ : Dynamic) =
              { (⟨x, y, w, h, ⟨vx, vy⟩, p, false⟩ : Dynamic) with had_collision := f } from rfl,
            hflag]
        simp

/-- The fuel search returns at most any `m ≥ k` with `c ≤ m * m`. -/
theorem ceilSqrtAux_le (c : ℕ) :
    ∀ (fuel k m : ℕ), k ≤ m → c ≤ m * m → ceilSqrtAux c fuel k ≤ m
  | 0, _, _, hkm, _ => hkm
  | fuel + 1, k, m, hkm, hm => by
    simp only [ceilSqrtAux]
    split_ifs with h
    · exact hkm
    · refine ceilSqrtAux_le c fuel (k + 1) m ?_ hm
      rcases Nat.eq_or_lt_of_le hkm with rfl | hlt
      · exact absurd hm h
      · exact hlt

/-- With enough fuel the search lands on a value whose square reaches `c`. -/
theorem ceilSqrtAux_found (c : ℕ) :
    ∀ (fuel k : ℕ), c ≤ (k + fuel) * (k + fuel) →
      c ≤ ceilSqrtAux c fuel k * ceilSqrtAux c fuel k
  | 0, k, hk => by simpa using hk
  | fuel + 1, k, hk => by
    simp only [ceilSqrtAux]
    split_ifs with h
    · exact h
    · refine ceilSqrtAux_found c fuel (k + 1) ?_
      have harg : k + 1 + fuel = k + (fuel + 1) := by omega
      rw [harg]
      exact hk

/-- Galois characterisation of the natural ceiling square root. -/
theorem ceilSqrtNat_le_iff (c n : ℕ) : ceilSqrtNat c ≤ n ↔ c ≤ n * n := by
  constructor
  · intro h
    have hcc : c ≤ c * c := by
      match c with
      | 0 => exact Nat.le_refl 0
      | c + 1 => exact Nat.le_mul_of_pos_left (c + 1) (Nat.succ_pos c)
    have hf := ceilSqrtAux_found c c 0 (by simpa using hcc)
    exact hf.trans (Nat.mul_le_mul h h)
  · intro h
    exact ceilSqrtAux_le c c 0 n (Nat.zero_le n) h

/-- Galois characterisation of `ceilSqrt` over the rationals: it is below
`n` exactly when `q` is below `n ^ 2`. -/
theorem ceilSqrt_le_iff (q : ℚ) (n : ℕ) : ceilSqrt q ≤ n ↔ q ≤ (n : ℚ) ^ 2 := by
  unfold ceilSqrt
  split_ifs with h
  · simp only [Nat.zero_le, true_iff]
    exact h.trans (by positivity)
  · push_neg at h
    rw [ceilSqrtNat_le_iff, Int.toNat_le, Int.ceil_le]
    push_cast
    rw [sq]

/-- The embedded `ceil(length / sweep_length)` equals the real-number
ceiling the source computes with `length = sqrt(lengthSq)`. -/
theorem ceilSqrt_div_eq_ceil_sqrt (s u : ℚ) (hs : 0 ≤ s) (hu : 0 < u) :
    ceilSqrt (s / u ^ 2) = ⌈Real.sqrt (s : ℝ) / (u : ℝ)⌉₊ := by
  have hu0 : (0 : ℝ) < (u : ℝ) := by exact_mod_cast hu
  have hs0 : (0 : ℝ) ≤ (s : ℝ) := by exact_mod_cast hs
  apply le_antisymm
  · rw [ceilSqrt_le_iff]
    have h1 : Real.sqrt s / u ≤ (⌈Real.sqrt (s : ℝ) / (u : ℝ)⌉₊ : ℝ) := Nat.le_ceil _
    have h2 : Real.sqrt s ≤ (⌈Real.sqrt (s : ℝ) / (u : ℝ)⌉₊ : ℝ) * u := (div_le_iff₀ hu0).1 h1
    have h3 : (s : ℝ) ≤ ((⌈Real.sqrt (s : ℝ) / (u : ℝ)⌉₊ : ℝ) * u) ^ 2 :=
      (Real.sqrt_le_iff.1 h2).2
    have h4 : (s : ℝ) / (u : ℝ) ^ 2 ≤ (⌈Real.sqrt (s : ℝ) / (u : ℝ)⌉₊ : ℝ) ^ 2 := by
      rw [div_le_iff₀ (by positivity)]
      calc (s : ℝ) ≤ ((⌈Real.sqrt (s : ℝ) / (u : ℝ)⌉₊ : ℝ) * u) ^ 2 := h3
        _ = (⌈Real.sqrt (s : ℝ) / (u : ℝ)⌉₊ : ℝ) ^ 2 * (u : ℝ) ^ 2 := by ring
    exact_mod_cast h4
  · refine Nat.ceil_le.2 ?_
    have h1 : s / u ^ 2 ≤ ((ceilSqrt (s / u ^ 2) : ℕ) : ℚ) ^ 2 := (ceilSqrt_le_iff _ _).1 le_rfl
    have h1r : (s : ℝ) / (u : ℝ) ^ 2 ≤ ((ceilSqrt (s / u ^ 2) : ℕ) : ℝ) ^ 2 := by
      exact_mod_cast h1
    have h2 : (s : ℝ) ≤ (((ceilSqrt (s / u ^ 2) : ℕ) : ℝ) * u) ^ 2 := by
      rw [div_le_iff₀ (by positivity)] at h1r
      calc (s : ℝ) ≤ ((ceilSqrt (s / u ^ 2) : ℕ) : ℝ) ^ 2 * (u : ℝ) ^ 2 := h1r
        _ = _ := by ring
    rw [div_le_iff₀ hu0]
    exact Real.sqrt_le_iff.2 ⟨by positivity, h2⟩

/-- The squared planned displacement is never negative. -/
theorem lengthSq_nonneg (wld : World) (one : Dynamic) : 0 ≤ lengthSq wld one := by
  unfold lengthSq
  positivity

/-- The source's single substep agrees with the phase-by-phase restatement
of the specification; shared by the claim about the substep algorithm. -/
theorem substep_eq_substepSpec (wld : World) (one : Dynamic) (dt : ℚ) :
    simulate_one_substep wld one dt = substepSpec wld one dt := by
  cases one with
  | mk x y w h v p f =>
    cases v with
    | mk vx vy =>
      dsimp only [simulate_one_substep, substepSpec, snapshotPosition, accelerate,
        moveVertical, moveHorizontal]
      split_ifs <;> simp [*]

/-!
Claims.
-/

/-- C4: each substep snapshots `previous_position`, then adds
`gravity * dt` to the velocity, then applies the vertical component with
rollback of `y` and zeroing of `velocity.y` on any overlap, and only
afterwards applies the horizontal component with the analogous rollback
of `x`; vertical resolution precedes horizontal in every substep.  Stated
as: the embedded source substep equals the specification's phase
composition `substepSpec` for every world, body and time scale. -/
theorem C4_substep_algorithm (wld : World) (one : Dynamic) (dt : ℚ) :
    simulate_one_substep wld one dt = substepSpec wld one dt :=
  substep_eq_substepSpec wld one dt

/-- C10: within one substep the sizes never change, the vertical outcome
is either a rollback (`y` restored, `velocity.y` zeroed) or the plain
vertical move with gravity applied, and the horizontal outcome is either
a rollback (`x` restored, `velocity.x` zeroed) or the plain horizontal
move — each axis resolved without touching the other axis's position or
velocity component, so a body landing on a floor keeps its gravity-updated
horizontal velocity. -/
theorem C10_axis_isolation (wld : World) (one : Dynamic) (dt : ℚ) :
    ((simulate_one_substep wld one dt).1.w = one.w ∧
      (simulate_one_substep wld one dt).1.h = one.h) ∧
    (((simulate_one_substep wld one dt).1.y = one.y ∧
        (simulate_one_substep wld one dt).1.velocity.y = 0) ∨
      ((simulate_one_substep wld one dt).1.y
          = one.y + (one.velocity.y + wld.gravity.y * dt) * dt ∧
        (simulate_one_substep wld one dt).1.velocity.y
          = one.velocity.y + wld.gravity.y * dt)) ∧
    (((simulate_one_substep wld one dt).1.x = one.x ∧
        (simulate_one_substep wld one dt).1.velocity.x = 0) ∨
      ((simulate_one_substep wld one dt).1.x
          = one.x + (one.velocity.x + wld.gravity.x * dt) * dt ∧
        (simulate_one_substep wld one dt).1.velocity.x
          = one.velocity.x + wld.gravity.x * dt)) := by
  cases one with
  | mk x y w h v p f =>
    cases v with
    | mk vx vy =>
      dsimp only [simulate_one_substep]
      split_ifs <;> simp

/-- The world of the inside-an-obstacle counterexample: one large obstacle
`rect(0, 0, 10, 10)`. -/
def world3 : World := { statics := [⟨0, 0, 10, 10⟩], gravity := ⟨0, 1⟩ }

/-- A body placed overlapping the obstacle of `world3`. -/
def body3 : Dynamic := { x := 0, y := 0, w := 3, h := 3 }

/-- C3 counterexample: a body that starts overlapping an obstacle is
resolved on both axes during the substep (both rollbacks fire, both
velocity components are zeroed, the substep reports a collision), yet the
returned body still overlaps the obstacle: rollback restores the previous
position, which was itself overlapping. -/
theorem C3_counterexample :
    simulate_one_substep world3 body3 1 =
      ({ x := 0, y := 0, w := 3, h := 3, velocity := ⟨0, 0⟩,
         old_position := ⟨0, 0⟩, had_collision := false }, true) ∧
    check_dynamic_static_collision world3 (simulate_one_substep world3 body3 1).1 = true := by
  constructor
  · decide!
  · decide!

/-- C3 (amended): if the body overlaps no obstacle when the substep
starts, then after the substep it overlaps no obstacle — resolution is
authoritative for bodies that were not already interpenetrating. -/
theorem C3_post_substep_no_overlap (wld : World) (one : Dynamic) (dt : ℚ)
    (h : check_dynamic_static_collision wld one = false) :
    check_dynamic_static_collision wld (simulate_one_substep wld one dt).1 = false := by
  cases one with
  | mk x y w h0 v p f =>
    cases v with
    | mk vx vy =>
      dsimp only [simulate_one_substep]
      split_ifs with h1 h2 h3 <;> simp only [Bool.not_eq_true] at * <;>
        first | exact h | exact h1 | exact h2 | exact h3

/-- C3 witness: the resting-stability body starts clean in its world and
is still clean after a full substep. -/
theorem C3_witness :
    check_dynamic_static_collision world1 body1 = false ∧
    check_dynamic_static_collision world1 (simulate_one_substep world1 body1 1).1 = false :=
  ⟨by decide!,
    C3_post_substep_no_overlap world1 body1 1 (by decide!)⟩

/-- A falling body whose velocity exactly cancels gravity: the planned
displacement is zero. -/
def body5 : Dynamic := { x := 4, y := 10, w := 3, h := 3, velocity := ⟨0, -1⟩ }

/-- C5 counterexample: for a planned displacement of zero the source's
substep count is `ceil(0) = 0`, not the claimed minimum of `1`: the frame
runs no substep at all, so the body keeps velocity `(0, -1)` unchanged
(gravity is never applied), whereas one substep at `dt = 1` would have
changed the velocity. -/
theorem C5_counterexample :
    coarseSweepSteps world1 body5 = 0 ∧
    simulate_one world1 body5 1 true = some { body5 with had_collision := false } ∧
    (simulate_one_step world1 (mkDummy body5) 1).velocity ≠ body5.velocity := by
  refine ⟨?_, ?_, ?_⟩ <;> decide!

/-- C5 (amended): for a body with a positive smallest dimension the coarse
substep count is exactly `ceil(magnitude(velocity + gravity) / (min(w,h)/2))`
— the real-number ceiling, with no minimum applied (it is `0` when the
planned displacement is zero) — and `simulate_one_step` runs its `n`
substeps each with time scale `1 / n`. -/
theorem C5_substep_count (wld : World) (one : Dynamic)
    (hmin : 0 < min one.w one.h) :
    coarseSweepSteps wld one =
      ⌈Real.sqrt ((lengthSq wld one : ℚ) : ℝ) / ((min one.w one.h / 2 : ℚ) : ℝ)⌉₊ ∧
    ∀ (b : Dynamic) (n : ℕ), simulate_one_step wld b n = run_substeps wld (1 / (n : ℚ)) n b := by
  constructor
  · unfold coarseSweepSteps sweepStepsOf
    rw [if_neg (not_lt.2 (le_of_lt (div_pos hmin two_pos)))]
    exact ceilSqrt_div_eq_ceil_sqrt _ _ (lengthSq_nonneg wld one) (div_pos hmin two_pos)
  · intro b n
    rfl

/-- C5 witness: the substep-count formula applied to the tunneling body,
whose dimensions are positive. -/
theorem C5_witness :
    0 < min body2.w body2.h ∧
    (coarseSweepSteps world1 body2 =
        ⌈Real.sqrt ((lengthSq world1 body2 : ℚ) : ℝ) / ((min body2.w body2.h / 2 : ℚ) : ℝ)⌉₊ ∧
      ∀ (b : Dynamic) (n : ℕ),
        simulate_one_step world1 b n = run_substeps world1 (1 / (n : ℚ)) n b) :=
  ⟨by decide!, C5_substep_count world1 body2 (by decide!)⟩

/-- C6: a zero-size body makes the sweep-unit `min(w, h) / 2` zero and
`simulate_one` faults (the embedded `none` is the source's
`ZeroDivisionError` from `ceil(length / 0.0)`); there is no guard treating
this case as one substep, contrary to the claim. -/
theorem C6_zero_size_faults :
    simulate_one world1 { x := 4, y := 10, w := 0, h := 3 } 1 true = none := by
  decide!

/-- A controller mid-jump with the jump key released before the ballistic
cutoff and no collision. -/
def guy9 : Guy :=
  { vy := 0, had_collision := false, jump_pressed := false, jump_pressed_now := false,
    jump_frame := 1, jump_state := .jumping }

/-- C9 counterexample: in the `jumping` state with no collision and the
jump key released before the cutoff, the machine does nothing at all — in
particular it does not transition to `falling` as the claim requires. -/
theorem C9_counterexample :
    guy9.jump_state = JumpState.jumping ∧ guy9.had_collision = false ∧
    guy9.jump_pressed = false ∧ guy9.jump_frame ≤ MAX_JUMP_FRAME ∧
    jumpStateMachine guy9 = guy9 ∧
    (jumpStateMachine guy9).jump_state ≠ JumpState.falling := by
  refine ⟨rfl, rfl, rfl, by decide, ?_, ?_⟩ <;> decide!

/-- C9 (amended): releasing the jump key while `jumping` (and not
colliding) leaves the controller completely unchanged: the state stays
`jumping`, and only the end of the velocity override makes the body fall;
the transition to `falling` happens later, on a collision or on the
cutoff while the key is held. -/
theorem C9_release_keeps_jumping (g : Guy) (hs : g.jump_state = JumpState.jumping)
    (hc : g.had_collision = false) (hp : g.jump_pressed = false) :
    jumpStateMachine g = g := by
  cases g
  simp_all [jumpStateMachine, jumpingStep]

/-- C9 witness: the concrete mid-jump controller is left unchanged. -/
theorem C9_witness :
    guy9.jump_state = JumpState.jumping ∧ guy9.had_collision = false ∧
    guy9.jump_pressed = false ∧ jumpStateMachine guy9 = guy9 :=
  ⟨rfl, rfl, rfl, C9_release_keeps_jumping guy9 rfl rfl rfl⟩

/-- Concrete evaluation: seven frames take the resting-stability body to
its rest state. -/
theorem frames7_body1 : simulateFrames world1 1 true body1 7 = some restState1 := by
  decide!

/-- Concrete evaluation: the rest state is a fixed point of the frame. -/
theorem restState1_fixed : simulate_one world1 restState1 1 true = some restState1 := by
  decide!

/-- The state of the no-tunneling body at the end of frame 2, the frame in
which it reaches the obstacle. -/
def touchState2 : Dynamic :=
  { x := 4, y := 182935 / 6776, w := 3, h := 3, velocity := ⟨0, 1 / 44⟩,
    old_position := ⟨4, 365863 / 13552⟩, had_collision := true }

/-- Concrete evaluation: two frames take the tunneling body to contact. -/
theorem frames2_body2 : simulateFrames world1 1 true body2 2 = some touchState2 := by
  decide!

/-- Concrete evaluation: one more frame settles the contact state into the
rest state. -/
theorem touch_to_rest : simulateFrames world1 1 true touchState2 1 = some restState2 := by
  decide!

/-- Concrete evaluation: the tunneling body's rest state is a fixed point
of the frame. -/
theorem restState2_fixed : simulate_one world1 restState2 1 true = some restState2 := by
  decide!

/-- C1 counterexample: the resting-stability scenario reaches, at frame 7,
a state it keeps forever (one frame maps it to itself), and in that state
`body.y + body.h = 1079/36 ≠ 30`: rollback-only resolution leaves the body
a fraction short of the obstacle's top edge, so "after enough frames
`y + h == 30` exactly" is false. -/
theorem C1_counterexample :
    simulateFrames world1 1 true body1 7 = some restState1 ∧
    simulate_one world1 restState1 1 true = some restState1 ∧
    restState1.y + restState1.h ≠ 30 :=
  ⟨frames7_body1, restState1_fixed, by decide!⟩

/-- C1 (amended): after 7 frames the resting-stability body is at rest and
every further frame leaves the whole state unchanged (no jitter):
`y + h = 1079/36` (a little less than the claimed 30), `velocity.y = 0`
and `collided = true`. -/
theorem C1_resting_stability : ∀ n : ℕ, 7 ≤ n →
    simulateFrames world1 1 true body1 n = some restState1 ∧
    restState1.y + restState1.h = 1079 / 36 ∧
    restState1.velocity.y = 0 ∧ restState1.had_collision = true := by
  intro n hn
  obtain ⟨k, rfl⟩ : ∃ k, n = 7 + k := ⟨n - 7, by omega⟩
  refine ⟨?_, by decide!, rfl, rfl⟩
  rw [simulateFrames_add, frames7_body1]
  simpa using simulateFrames_fixed world1 1 true restState1 restState1_fixed k

/-- C1 witness: the amended resting stability at the concrete frame 8. -/
theorem C1_witness :
    7 ≤ 8 ∧ (simulateFrames world1 1 true body1 8 = some restState1 ∧
      restState1.y + restState1.h = 1079 / 36 ∧
      restState1.velocity.y = 0 ∧ restState1.had_collision = true) :=
  ⟨by decide, C1_resting_stability 8 (by decide)⟩

/-- C2: with sweeping enabled the fast body `rect(4,0,3,3)` with velocity
`(0, 20)` never ends a frame beyond the obstacle top `30`
(`body.y + body.h ≤ 30` after every frame), and from the frame in which it
reaches the obstacle onwards (frame 2 for this start, 30 units above the
obstacle) `collided = true`. -/
theorem C2_no_tunneling : ∀ n : ℕ, ∃ b : Dynamic,
    simulateFrames world1 1 true body2 n = some b ∧
    b.y + b.h ≤ 30 ∧ (2 ≤ n → b.had_collision = true) := by
  intro n
  match n with
  | 0 =>
    exact ⟨body2, rfl, by decide!, fun hh => absurd hh (by decide)⟩
  | 1 =>
    refine ⟨⟨4, 575 / 28, 3, 3, ⟨0, 21⟩, ⟨0, 0⟩, false⟩, ?_, ?_,
      fun hh => absurd hh (by decide)⟩
    · decide!
    · decide!
  | (m + 2) =>
    rw [show m + 2 = 2 + m from by omega, simulateFrames_add, frames2_body2]
    cases m with
    | zero =>
      refine ⟨touchState2, by simp [simulateFrames], by decide!, fun _ => rfl⟩
    | succ k =>
      refine ⟨restState2, ?_, by decide!, fun _ => rfl⟩
      simp only [Option.some_bind]
      rw [show k + 1 = 1 + k from by omega, simulateFrames_add, touch_to_rest]
      simpa using simulateFrames_fixed world1 1 true restState2 restState2_fixed k

/-- C2 witness: the no-tunneling conclusion at the contact frame 2. -/
theorem C2_witness : ∃ b : Dynamic,
    simulateFrames world1 1 true body2 2 = some b ∧
    b.y + b.h ≤ 30 ∧ (2 ≤ 2 → b.had_collision = true) :=
  C2_no_tunneling 2

/-- Unfolds a sweeping `simulate_one` frame, once the sweep unit is known
nonzero, into its trial-then-branch shape; shared by the adaptive
refinement and collision-flag claims. -/
theorem simulate_one_sweep_unfold (wld : World) (one : Dynamic) (spf : ℕ)
    (hne : min one.w one.h / 2 ≠ 0) :
    simulate_one wld one spf true =
      if (simulate_one_step wld (mkDummy one) (spf * coarseSweepSteps wld one)).had_collision
      then some (simulate_one_step wld one (spf * fineSweepSteps wld one))
      else some { one with
        x := (simulate_one_step wld (mkDummy one) (spf * coarseSweepSteps wld one)).x,
        y := (simulate_one_step wld (mkDummy one) (spf * coarseSweepSteps wld one)).y,
        velocity := (simulate_one_step wld (mkDummy one) (spf * coarseSweepSteps wld one)).velocity,
        had_collision :=
          (simulate_one_step wld (mkDummy one) (spf * coarseSweepSteps wld one)).had_collision } := by
  have h1 : simulate_one wld one spf true =
      if min one.w one.h / 2 = 0 then none
      else
        if (simulate_one_step wld (mkDummy one) (spf * coarseSweepSteps wld one)).had_collision
        then some (simulate_one_step wld one (spf * fineSweepSteps wld one))
        else some { one with
          x := (simulate_one_step wld (mkDummy one) (spf * coarseSweepSteps wld one)).x,
          y := (simulate_one_step wld (mkDummy one) (spf * coarseSweepSteps wld one)).y,
          velocity := (simulate_one_step wld (mkDummy one) (spf * coarseSweepSteps wld one)).velocity,
          had_collision :=
            (simulate_one_step wld (mkDummy one) (spf * coarseSweepSteps wld one)).had_collision } := rfl
  rw [h1, if_neg hne]

/-- C7 (amended): the coarse sweep runs on the disposable copy first; if
the trial reports no collision, the trial's position, velocity and (false)
collision flag are copied onto the real body — its position and velocity
then equal those of simulating the real body directly at the coarse
subdivision, though the flag and `old_position` need not — and if the
trial reports a collision, the frame is re-run on the real body at the
fine `sweep_unit = 0.5` subdivision. -/
theorem C7_adaptive_refinement (wld : World) (one : Dynamic) (spf : ℕ)
    (hmin : 0 < min one.w one.h) :
    ((simulate_one_step wld (mkDummy one) (spf * coarseSweepSteps wld one)).had_collision = false →
      simulate_one wld one spf true = some { one with
          x := (simulate_one_step wld (mkDummy one) (spf * coarseSweepSteps wld one)).x,
          y := (simulate_one_step wld (mkDummy one) (spf * coarseSweepSteps wld one)).y,
          velocity := (simulate_one_step wld (mkDummy one) (spf * coarseSweepSteps wld one)).velocity,
          had_collision := false } ∧
      (simulate_one_step wld (mkDummy one) (spf * coarseSweepSteps wld one)).x
          = (simulate_one_step wld one (spf * coarseSweepSteps wld one)).x ∧
      (simulate_one_step wld (mkDummy one) (spf * coarseSweepSteps wld one)).y
          = (simulate_one_step wld one (spf * coarseSweepSteps wld one)).y ∧
      (simulate_one_step wld (mkDummy one) (spf * coarseSweepSteps wld one)).velocity
          = (simulate_one_step wld one (spf * coarseSweepSteps wld one)).velocity) ∧
    ((simulate_one_step wld (mkDummy one) (spf * coarseSweepSteps wld one)).had_collision = true →
      simulate_one wld one spf true =
        some (simulate_one_step wld one (spf * fineSweepSteps wld one))) := by
  have hne : min one.w one.h / 2 ≠ 0 := (div_pos hmin two_pos).ne'
  have hcore := run_substeps_mkDummy wld (1 / ((spf * coarseSweepSteps wld one : ℕ) : ℚ))
    (spf * coarseSweepSteps wld one) one
  constructor
  · intro htrial
    refine ⟨?_, hcore.1.symm, hcore.2.1.symm, hcore.2.2.2.2.1.symm⟩
    rw [simulate_one_sweep_unfold wld one spf hne, htrial]
    simp
  · intro htrial
    rw [simulate_one_sweep_unfold wld one spf hne, htrial]
    simp

/-- C7 witness: the adaptive refinement statement at the resting scenario
(the trial there reports no collision). -/
theorem C7_witness :
    0 < min body1.w body1.h ∧
    (((simulate_one_step world1 (mkDummy body1) (1 * coarseSweepSteps world1 body1)).had_collision
        = false →
      simulate_one world1 body1 1 true = some { body1 with
          x := (simulate_one_step world1 (mkDummy body1) (1 * coarseSweepSteps world1 body1)).x,
          y := (simulate_one_step world1 (mkDummy body1) (1 * coarseSweepSteps world1 body1)).y,
          velocity :=
            (simulate_one_step world1 (mkDummy body1) (1 * coarseSweepSteps world1 body1)).velocity,
          had_collision := false } ∧
      (simulate_one_step world1 (mkDummy body1) (1 * coarseSweepSteps world1 body1)).x
          = (simulate_one_step world1 body1 (1 * coarseSweepSteps world1 body1)).x ∧
      (simulate_one_step world1 (mkDummy body1) (1 * coarseSweepSteps world1 body1)).y
          = (simulate_one_step world1 body1 (1 * coarseSweepSteps world1 body1)).y ∧
      (simulate_one_step world1 (mkDummy body1) (1 * coarseSweepSteps world1 body1)).velocity
          = (simulate_one_step world1 body1 (1 * coarseSweepSteps world1 body1)).velocity) ∧
    ((simulate_one_step world1 (mkDummy body1) (1 * coarseSweepSteps world1 body1)).had_collision
        = true →
      simulate_one world1 body1 1 true =
        some (simulate_one_step world1 body1 (1 * fineSweepSteps world1 body1)))) :=
  ⟨by decide!, C7_adaptive_refinement world1 body1 1 (by decide!)⟩

/-- A world with no obstacles. -/
def worldFree : World := { statics := [], gravity := ⟨0, 1⟩ }

/-- A free-falling body carrying a stale `old_position` and a collision
flag left over from an earlier frame. -/
def body7 : Dynamic :=
  { x := 0, y := 0, w := 3, h := 3, old_position := ⟨9, 9⟩, had_collision := true }

/-- C7 counterexample: for a body whose flag was already set, a
no-collision frame copies `collided = false` (and keeps the stale
`old_position`), while simulating the real body directly at the coarse
subdivision leaves the flag `true` and overwrites `old_position`: the
frame's outcome does not equal direct simulation, against the claim's
parenthetical. -/
theorem C7_counterexample :
    simulate_one worldFree body7 1 true =
      some { x := 0, y := 1, w := 3, h := 3, velocity := ⟨0, 1⟩,
             old_position := ⟨9, 9⟩, had_collision := false } ∧
    simulate_one_step worldFree body7 1 =
      { x := 0, y := 1, w := 3, h := 3, velocity := ⟨0, 1⟩,
        old_position := ⟨0, 0⟩, had_collision := true } ∧
    simulate_one worldFree body7 1 true ≠ some (simulate_one_step worldFree body7 1) := by
  refine ⟨?_, ?_, ?_⟩ <;> decide!

/-- C8 (amended): when the trial reports no collision the frame overwrites
the body's flag with `false` (recomputed); when the trial reports a
collision the frame's final flag is the body's previous flag ORed with
whether some fine substep collided — on the refinement path the flag is
only ever set, never cleared, so it is sticky. -/
theorem C8_collided_flag (wld : World) (one : Dynamic) (spf : ℕ)
    (hmin : 0 < min one.w one.h) :
    ((simulate_one_step wld (mkDummy one) (spf * coarseSweepSteps wld one)).had_collision = false →
      ∃ r, simulate_one wld one spf true = some r ∧ r.had_collision = false) ∧
    ((simulate_one_step wld (mkDummy one) (spf * coarseSweepSteps wld one)).had_collision = true →
      ∃ r, simulate_one wld one spf true = some r ∧
        r.had_collision = (one.had_collision ||
          (simulate_one_step wld (mkDummy one) (spf * fineSweepSteps wld one)).had_collision)) := by
  have hne : min one.w one.h / 2 ≠ 0 := (div_pos hmin two_pos).ne'
  constructor
  · intro htrial
    refine ⟨{ one with
        x := (simulate_one_step wld (mkDummy one) (spf * coarseSweepSteps wld one)).x,
        y := (simulate_one_step wld (mkDummy one) (spf * coarseSweepSteps wld one)).y,
        velocity :=
          (simulate_one_step wld (mkDummy one) (spf * coarseSweepSteps wld one)).velocity,
        had_collision := false }, ?_, rfl⟩
    rw [simulate_one_sweep_unfold wld one spf hne, htrial]
    simp
  · intro htrial
    refine ⟨simulate_one_step wld one (spf * fineSweepSteps wld one), ?_, ?_⟩
    · rw [simulate_one_sweep_unfold wld one spf hne, htrial]
      simp
    · exact (run_substeps_mkDummy wld (1 / ((spf * fineSweepSteps wld one : ℕ) : ℚ))
        (spf * fineSweepSteps wld one) one).2.2.2.2.2

/-- C8 witness: the collision-flag characterisation at the resting
scenario. -/
theorem C8_witness :
    0 < min body1.w body1.h ∧
    (((simulate_one_step world1 (mkDummy body1) (1 * coarseSweepSteps world1 body1)).had_collision
        = false →
      ∃ r, simulate_one world1 body1 1 true = some r ∧ r.had_collision = false) ∧
    ((simulate_one_step world1 (mkDummy body1) (1 * coarseSweepSteps world1 body1)).had_collision
        = true →
      ∃ r, simulate_one world1 body1 1 true = some r ∧
        r.had_collision = (body1.had_collision ||
          (simulate_one_step world1 (mkDummy body1)
            (1 * fineSweepSteps world1 body1)).had_collision))) :=
  ⟨by decide!, C8_collided_flag world1 body1 1 (by decide!)⟩

/-- A body resting `3/4` above the obstacle with its collision flag still
set: the coarse trial overshoots into the obstacle, but the fine re-run
ends exactly touching (no overlap, strict inequalities), so no substep of
the frame collides. -/
def body8 : Dynamic := { x := 4, y := 105 / 4, w := 3, h := 3, had_collision := true }

/-- C8 counterexample: two runs of the same frame differing only in the
incoming flag end with different flags although the frame's substeps are
identical and none of them collides (as the `false` run shows): the flag
is not recomputed every frame on the refinement path, against the claim's
"regardless of the flag's value before the frame". -/
theorem C8_counterexample :
    simulate_one world1 body8 1 true =
      some { x := 4, y := 27, w := 3, h := 3, velocity := ⟨0, 1⟩,
             old_position := ⟨4, 53 / 2⟩, had_collision := true } ∧
    simulate_one world1 { body8 with had_collision := false } 1 true =
      some { x := 4, y := 27, w := 3, h := 3, velocity := ⟨0, 1⟩,
             old_position := ⟨4, 53 / 2⟩, had_collision := false } := by
  constructor <;> decide!

end Platformer
